import Mathlib

/-!
A shallow embedding, in Lean 4, of the wzshiming/socks4 SOCKS4 / SOCKS4a
proxy implementation (Go), together with theorems settling a list of claims
about it.

Bytes are modelled as `Nat` (with explicit `< 256` bounds where they matter),
byte strings as `List Nat`, Go strings as Lean `String` or `List Nat`
(Go strings are byte strings).  Fallible operations return `Option` or
`Except`.  Network effects (dial, listen, accept) are modelled by passing
their outcomes in explicitly as environment values, and the bytes written to
the client connection are collected as explicit traces.

The repository's wire-codec source file (defining `address`, `readAddr`,
`writeAddr`, `readAddrAndUser`, the `Command` and `reply` constants and
their rendering) is not present in the source snapshot; those definitions
are modelled from the specification and are marked `Modelled from the spec:`
in their doc comments.  Everything else is translated directly from
`server.go`, `client.go` and `auth.go`.
-/

namespace Socks4

/-! ## Protocol constants (spec section 3: Command and Reply code enums) -/

def socks4Version : Nat := 4

abbrev Command := Nat

def connectCommand : Command := 1
def bindCommand : Command := 2

abbrev reply := Nat

def grantedReply : reply := 0x5A
def rejectedReply : reply := 0x5B
def noIdentdReply : reply := 0x5C
def invalidUserReply : reply := 0x5D

/-! ## Address model

Modelled from the spec: the missing codec file defines `address` as a
destination that is either an IPv4 address or a domain name, plus a port
(Go struct with fields `IP net.IP`, `Name string`, `Port int`; `ip = none`
means the destination is the domain `name`).  Reply addresses built by the
server from `net.TCPAddr` values may also carry an IPv6 address, which the
SOCKS4 wire format cannot express. -/

inductive IPAddr where
  | v4 (a b c d : Nat)
  | v6 (bytes : List Nat)
deriving DecidableEq, Repr

structure address where
  ip : Option IPAddr
  name : List Nat
  port : Nat
deriving DecidableEq, Repr

/-! ## Wire codec (spec section 4.1) -/

/-- Modelled from the spec: usernames and domains have an
implementation-defined maximum of 256 bytes; exceeding it fails. -/
def maxStringLen : Nat := 256

/-- Modelled from the spec: read a NUL-terminated byte string of at most
`limit` non-NUL bytes off the front of `bs`, returning it and the tail. -/
def readString : List Nat → Nat → Option (List Nat × List Nat)
  | [], _ => none
  | b :: rest, limit =>
    if b = 0 then some ([], rest)
    else
      match limit with
      | 0 => none
      | Nat.succ l => (readString rest l).map fun p => (b :: p.1, p.2)

/-- Big-endian 2-byte encoding of a 16-bit port (Go `binary.BigEndian.PutUint16`
with the `uint16` truncation made explicit). -/
def putUint16 (p : Nat) : List Nat := [p / 256 % 256, p % 256]

/-- Modelled from the spec: `readAddrAndUser` of the missing codec file.
Reads destination port (2 bytes big-endian), destination IPv4 (4 bytes),
then the NUL-terminated username; an IPv4 field `0.0.0.X` with `X ≠ 0`
marks SOCKS4a, in which case the NUL-terminated domain follows the
username.  Returns ((address, username), remaining bytes). -/
def readAddrAndUser (bs : List Nat) : Option ((address × List Nat) × List Nat) :=
  match bs with
  | p1 :: p2 :: a :: b :: c :: d :: rest =>
    let port := p1 * 256 + p2
    if a = 0 ∧ b = 0 ∧ c = 0 ∧ d ≠ 0 then
      match readString rest maxStringLen with
      | some (user, rest1) =>
        match readString rest1 maxStringLen with
        | some (dom, rest2) => some ((⟨none, dom, port⟩, user), rest2)
        | none => none
      | none => none
    else
      match readString rest maxStringLen with
      | some (user, rest1) => some ((⟨some (.v4 a b c d), [], port⟩, user), rest1)
      | none => none
  | _ => none

/-- Modelled from the spec: `decode_request` of the codec — version byte
(must be 0x04), command byte, then address and username as in
`readAddrAndUser`.  Returns ((command, address, username), remaining bytes). -/
def decode_request (bs : List Nat) : Option ((Command × address × List Nat) × List Nat) :=
  match bs with
  | ver :: cmd :: rest =>
    if ver = socks4Version then
      (readAddrAndUser rest).map fun p => ((cmd, p.1.1, p.1.2), p.2)
    else none
  | _ => none

/-- Modelled from the spec: `encode_request` of the codec.  Emits version,
command, port (2 bytes big-endian), then for an IPv4 destination the four
octets followed by the NUL-terminated username, and for a domain
destination the sentinel `0 0 0 1` followed by the NUL-terminated username
and the NUL-terminated domain.  `none` when the destination carries an
IPv6 address (SOCKS4 cannot express it). -/
def encode_request (cmd : Command) (addr : address) (user : List Nat) :
    Option (List Nat) :=
  match addr.ip with
  | some (.v4 a b c d) =>
    some ([socks4Version, cmd] ++ putUint16 addr.port ++ [a, b, c, d] ++ user ++ [0])
  | some (.v6 _) => none
  | none =>
    some ([socks4Version, cmd] ++ putUint16 addr.port ++ [0, 0, 0, 1] ++
      user ++ [0] ++ addr.name ++ [0])

/-- A destination that the SOCKS4 request encoding can carry faithfully:
either an IPv4 literal (octets in range) that is not of the SOCKS4a
sentinel shape `0.0.0.X` with `X ≠ 0`, or a domain name (NUL-free, at
most the decoder's 256-byte limit). -/
def wfDestination (addr : address) : Prop :=
  (∃ a b c d, addr.ip = some (.v4 a b c d) ∧ a < 256 ∧ b < 256 ∧ c < 256 ∧
    d < 256 ∧ ¬(a = 0 ∧ b = 0 ∧ c = 0 ∧ d ≠ 0) ∧ addr.name = []) ∨
  (addr.ip = none ∧ (∀ x ∈ addr.name, x ≠ 0) ∧ addr.name.length ≤ maxStringLen)

/-- Modelled from the spec: `writeAddr` of the codec, used for the 6
address bytes of a reply frame — port (2 bytes big-endian) then IPv4
(4 bytes); all six bytes zero when there is no meaningful address
(`nil` in Go); fails (emitting nothing) when the address is not IPv4,
since SOCKS4 cannot express it. -/
def writeAddr : Option address → Option (List Nat)
  | none => some [0, 0, 0, 0, 0, 0]
  | some a =>
    match a.ip with
    | some (.v4 x y z w) => some (putUint16 a.port ++ [x, y, z, w])
    | _ => none

/-- Result of writing a reply to the client connection: the bytes that
actually went out, and whether the write completed. -/
structure WriteResult where
  written : List Nat
  ok : Bool
deriving DecidableEq, Repr

/-- From `server.go` `sendReply`: write the two header bytes `0, resp`
first, then the 6 address bytes via `writeAddr`.  When `writeAddr` fails
(IPv6 bound address) the two header bytes have already been written. -/
def sendReply (resp : reply) (addr : Option address) : WriteResult :=
  match writeAddr addr with
  | some ab => ⟨[0, resp] ++ ab, true⟩
  | none => ⟨[0, resp], false⟩

/-! ## Server-side per-connection handler (`server.go`) -/

/-- Outcome of `serveConn` up to command dispatch.  The `dispatched*`
outcomes stand for entering `handleConnect` / `handleBind`, which perform
network I/O and are modelled separately. -/
inductive ServeOutcome where
  | errReadVersion
  | errUnsupportedVersion (v : Nat)
  | errReadCommand
  | errDecodeAddr
  | errUserAuthFailed
  | dispatchedConnect (addr : address) (user : List Nat)
  | dispatchedBind (addr : address) (user : List Nat)
  | errUnsupportedCommand (cmd : Command)
deriving DecidableEq, Repr

/-- From `server.go` `handle`: dispatch on the request command; commands
other than CONNECT and BIND get a rejected reply. -/
def handle (cmd : Command) (addr : address) (user : List Nat) :
    List Nat × ServeOutcome :=
  if cmd = connectCommand then ([], .dispatchedConnect addr user)
  else if cmd = bindCommand then ([], .dispatchedBind addr user)
  else ((sendReply rejectedReply none).written, .errUnsupportedCommand cmd)

/-- From `server.go` `serveConn`: read version byte (must be 0x04, else
terminate with no reply), read command byte, read address and username
(on decode failure send a rejected reply), run the authentication
predicate if configured (on reject send an invalidUser reply), then
dispatch.  Returns the bytes written to the client and the outcome. -/
def serveConn (auth : Option (Command → List Nat → Bool)) (input : List Nat) :
    List Nat × ServeOutcome :=
  match input with
  | [] => ([], .errReadVersion)
  | version :: rest =>
    if version ≠ socks4Version then ([], .errUnsupportedVersion version)
    else
      match rest with
      | [] => ([], .errReadCommand)
      | cmd :: rest2 =>
        match readAddrAndUser rest2 with
        | none => ((sendReply rejectedReply none).written, .errDecodeAddr)
        | some ((addr, user), _) =>
          if (match auth with
              | some f => !(f cmd user)
              | none => false) then
            ((sendReply invalidUserReply none).written, .errUserAuthFailed)
          else handle cmd addr user

/-- From `auth.go` `UserAuth` (with the `(command, username)` predicate
shape used at the call site in `server.go`): accept exactly the expected
username, for any command. -/
def UserAuth (username : List Nat) : Command → List Nat → Bool :=
  fun _ u => username == u

/-! ## Server-side CONNECT and BIND handlers (`server.go`)

The network effects are passed in as environment values: the outcome of
the outbound dial, of the listen call and of the accept call, each giving
the relevant `net.TCPAddr` (or `none` when the address is not a
`*net.TCPAddr`).  The handler's interaction with the client connection
and the listener is collected as an event trace. -/

/-- A `net.TCPAddr`: an IP (possibly IPv6) and a port. -/
structure TCPAddr where
  ip : IPAddr
  port : Nat
deriving DecidableEq, Repr

inductive SessionEvent where
  /-- Bytes written to the client connection (one `sendReply` call). -/
  | sent (bytes : List Nat)
  /-- The BIND listener was closed. -/
  | listenerClosed
  /-- One inbound connection was accepted on the BIND listener. -/
  | accepted
  /-- The bidirectional relay was entered. -/
  | tunnelStarted
deriving DecidableEq, Repr

inductive ConnectOutcome where
  | errDial
  | errReplyFailed
  | tunnel
deriving DecidableEq, Repr

/-- Environment for `handleConnect`: outcome of the outbound dial; on
success, the local `net.TCPAddr` of the outbound socket. -/
structure ConnectEnv where
  dialResult : Except Unit TCPAddr
deriving Repr

/-- From `server.go` `handleConnect`: dial the destination (on failure
send a rejected reply), then send a granted reply carrying the outbound
socket's local endpoint and enter the relay.  When the local endpoint is
IPv6 the reply write fails after its two header bytes and the handler
returns an error without relaying. -/
def handleConnect (env : ConnectEnv) : List SessionEvent × ConnectOutcome :=
  match env.dialResult with
  | .error _ => ([.sent (sendReply rejectedReply none).written], .errDial)
  | .ok localAddr =>
    let bind : address := ⟨some localAddr.ip, [], localAddr.port⟩
    let r := sendReply grantedReply (some bind)
    if r.ok then ([.sent r.written, .tunnelStarted], .tunnel)
    else ([.sent r.written], .errReplyFailed)

inductive BindOutcome where
  | errListen
  | errLocalNotTCP
  | errReplyFailed
  | errAccept
  | errRemoteNotTCP
  | tunnel
deriving DecidableEq, Repr

/-- Environment for `handleBind`: outcome of the listen call (on success,
the listener's address when it is a `*net.TCPAddr`) and outcome of the
accept call (on success, the accepted peer's address when it is a
`*net.TCPAddr`). -/
structure BindEnv where
  listenResult : Except Unit (Option TCPAddr)
  acceptResult : Except Unit (Option TCPAddr)
deriving Repr

/-- From `server.go` `handleBind`: listen at the destination (on failure
send a rejected reply); require the listener address to be a TCP address
(else close the listener and abort); send a first granted reply carrying
the listening endpoint (on write failure close the listener); accept one
inbound connection (on failure close the listener and send a rejected
reply); close the listener; require the peer address to be a TCP address;
send a second granted reply carrying the peer endpoint; enter the relay. -/
def handleBind (env : BindEnv) : List SessionEvent × BindOutcome :=
  match env.listenResult with
  | .error _ => ([.sent (sendReply rejectedReply none).written], .errListen)
  | .ok localAddrOpt =>
    match localAddrOpt with
    | none => ([.listenerClosed], .errLocalNotTCP)
    | some localAddr =>
      let r1 := sendReply grantedReply (some ⟨some localAddr.ip, [], localAddr.port⟩)
      if !r1.ok then ([.sent r1.written, .listenerClosed], .errReplyFailed)
      else
        match env.acceptResult with
        | .error _ =>
          ([.sent r1.written, .listenerClosed,
            .sent (sendReply rejectedReply none).written], .errAccept)
        | .ok remoteOpt =>
          match remoteOpt with
          | none => ([.sent r1.written, .accepted, .listenerClosed], .errRemoteNotTCP)
          | some remote =>
            let r2 := sendReply grantedReply (some ⟨some remote.ip, [], remote.port⟩)
            if !r2.ok then
              ([.sent r1.written, .accepted, .listenerClosed, .sent r2.written],
               .errReplyFailed)
            else
              ([.sent r1.written, .accepted, .listenerClosed, .sent r2.written,
                .tunnelStarted], .tunnel)

/-! ## Client dialer (`client.go`) -/

/-- Modelled from the spec: `readAddr` of the codec — read the 6 address
bytes of a reply frame: port (2 bytes big-endian) then IPv4 (4 bytes).
Returns the address and the remaining bytes. -/
def readAddr (bs : List Nat) : Option (address × List Nat) :=
  match bs with
  | p1 :: p2 :: a :: b :: c :: d :: rest =>
    some (⟨some (.v4 a b c d), [], p1 * 256 + p2⟩, rest)
  | _ => none

/-- Modelled from the spec: the rendering of a reply code (the `reply`
type's string method in the missing codec file), using the spec's names
for the four standard codes. -/
def replyStr (code : reply) : String :=
  if code = grantedReply then "granted"
  else if code = rejectedReply then "rejected"
  else if code = noIdentdReply then "noIdentd"
  else if code = invalidUserReply then "invalidUser"
  else "reply " ++ toString code

/-- From `client.go` `Dialer.readReply`: read the two header bytes, then
the six address bytes, and only then check the reply code; a code other
than granted fails with the wrapped message. -/
def readReply (bs : List Nat) : Except String (address × List Nat) :=
  match bs with
  | _ :: code :: rest =>
    match readAddr rest with
    | none => .error "short reply"
    | some (addr, rest2) =>
      if code ≠ grantedReply then
        .error ("socks connection request failed: " ++ replyStr code)
      else .ok (addr, rest2)
  | _ => .error "short reply"

/-- Result of `Dialer.do` after the transport to the proxy has been
opened: whether that transport was closed, and the outcome. -/
structure DoResult where
  connClosed : Bool
  result : Except String address
deriving Repr

/-- From `client.go` `Dialer.do` (lines after `proxyDial` succeeds): run
`connect` (write the request, read the reply from `replyBytes`); on any
error close the transport connection and return the error. -/
def doAfterDial (replyBytes : List Nat) : DoResult :=
  match readReply replyBytes with
  | .error e => ⟨true, .error e⟩
  | .ok (addr, _) => ⟨false, .ok addr⟩

/-! ## Client-side local resolution (`client.go` `Dialer.do`, lines 91–107)

Go's `net.SplitHostPort` and `net.ParseIP` are modelled for the
bracket-free addresses that reach this code path. -/

/-- Split a character list at every occurrence of `sep`. -/
def splitOnChar (sep : Char) : List Char → List (List Char)
  | [] => [[]]
  | ch :: rest =>
    if ch = sep then [] :: splitOnChar sep rest
    else
      match splitOnChar sep rest with
      | h :: t => (ch :: h) :: t
      | [] => [[ch]]

/-- `net.SplitHostPort` for bracket-free addresses: exactly one colon
separates host and port; otherwise the call fails. -/
def goSplitHostPort (s : String) : Option (String × String) :=
  match splitOnChar (Char.ofNat 58) s.data with
  | [host, port] => some (⟨host⟩, ⟨port⟩)
  | _ => none

def isDigitChar (ch : Char) : Bool := Char.ofNat 48 ≤ ch && ch ≤ Char.ofNat 57

/-- One dotted-quad field accepted by `net.ParseIP`: 1–3 decimal digits,
no leading zero, value at most 255. -/
def parseV4Field (s : List Char) : Option Nat :=
  match s with
  | [] => none
  | z :: _ :: _ =>
    if z = Char.ofNat 48 then none
    else parseV4FieldDigits s
  | _ => parseV4FieldDigits s
where
  parseV4FieldDigits (s : List Char) : Option Nat :=
    if !(s.all isDigitChar) then none
    else if s.length > 3 then none
    else
      let n := s.foldl (fun acc ch => acc * 10 + (ch.toNat - 48)) 0
      if n > 255 then none else some n

/-- `net.ParseIP` on a dotted-quad literal: four fields separated by
dots. -/
def goParseIPv4 (s : String) : Option IPAddr :=
  match (splitOnChar (Char.ofNat 46) s.data).mapM parseV4Field with
  | some [a, b, c, d] => some (.v4 a b c d)
  | _ => none

/-- The first `.` or `:` in a string, driving `net.ParseIP` dispatch. -/
def firstSpecial : List Char → Option Char
  | [] => none
  | ch :: rest =>
    if ch = Char.ofNat 46 ∨ ch = Char.ofNat 58 then some ch
    else firstSpecial rest

/-- `net.ParseIP`: dispatch on the first special character — a dot means
an IPv4 literal, a colon an IPv6 literal.  IPv6 textual parsing is not
needed by any claim and is represented as an abstract `v6` result. -/
def goParseIP (s : String) : Option IPAddr :=
  match firstSpecial s.data with
  | some ch =>
    if ch = Char.ofNat 46 then goParseIPv4 s
    else if ch = Char.ofNat 58 then some (.v6 [])
    else none
  | none => none

/-- `net.JoinHostPort`. -/
def joinHostPort (host port : String) : String :=
  if host.data.contains (Char.ofNat 58) then "[" ++ host ++ "]:" ++ port
  else host ++ ":" ++ port

/-- Outcome of the local-resolution phase of `Dialer.do`. -/
inductive ResolveOutcome where
  /-- Continue the dial with this target address string. -/
  | proceed (address : String)
  /-- Return an error to the caller. -/
  | fail
  /-- Go runtime panic: index out of range on `ipaddr[0]`. -/
  | panicked
deriving DecidableEq, Repr

/-- From `client.go` `Dialer.do` lines 91–107: when `IsResolve` is set,
split the target into host and port; when the host is non-empty and not
an IP literal, look it up via the resolver (`lookup` is the injected
resolver's result for the host) and rejoin the first returned address
with the port.  The unguarded `ipaddr[0]` on an empty successful lookup
result is a runtime panic. -/
def resolvePhase (isResolve : Bool) (address : String)
    (lookup : Except Unit (List String)) : ResolveOutcome :=
  if !isResolve then .proceed address
  else
    match goSplitHostPort address with
    | none => .fail
    | some (host, port) =>
      if host = "" then .proceed address
      else
        match goParseIP host with
        | some _ => .proceed address
        | none =>
          match lookup with
          | .error _ => .fail
          | .ok ips =>
            match ips with
            | [] => .panicked
            | ip :: _ => .proceed (joinHostPort ip port)

/-! ## `NewDialer` (`client.go` lines 35–63)

`url.Parse` is external; `NewDialer` is modelled over its result: the
scheme, the raw host (`u.Host`), the hostname (`u.Hostname()`), the port
(`u.Port()`, empty when absent) and the userinfo username when userinfo
is present. -/

structure URL where
  scheme : String
  host : String
  hostname : String
  port : String
  user : Option String
deriving DecidableEq, Repr

/-- The fields of `Dialer` that `NewDialer` sets. -/
structure Dialer where
  proxyNetwork : String
  proxyAddress : String
  username : String
  isResolve : Bool
  timeout : Nat
deriving DecidableEq, Repr

/-- `time.Minute` in nanoseconds. -/
def timeMinute : Nat := 60000000000

/-- From `client.go` `NewDialer`: reject schemes other than `socks4` and
`socks4a`; `socks4` turns local resolution on; default the port to 1080
when absent; take the username from the URL userinfo. -/
def NewDialer (u : URL) : Except String Dialer :=
  if u.scheme ≠ "socks4" ∧ u.scheme ≠ "socks4a" then
    .error ("unsupported protocol \x27" ++ u.scheme ++ "\x27")
  else
    let host := if u.port = "" then joinHostPort u.hostname "1080" else u.host
    let username := match u.user with
      | some name => name
      | none => ""
    .ok ⟨"tcp", host, username, u.scheme == "socks4", timeMinute⟩

/-- From `client.go` `Dialer.connect` line 124: a connect deadline is
computed exactly when the configured timeout is non-zero. -/
def connectAppliesTimeout (timeout : Nat) : Bool := timeout != 0

/-! ## Supporting lemmas -/

theorem readString_append : ∀ (s rest : List Nat) (limit : Nat),
    (∀ x ∈ s, x ≠ 0) → s.length ≤ limit →
    readString (s ++ 0 :: rest) limit = some (s, rest)
  | [], rest, limit, _, _ => by simp [readString]
  | b :: t, rest, Nat.succ l, hnul, hlen => by
    have hb : b ≠ 0 := hnul b (List.mem_cons_self b t)
    have ih := readString_append t rest l
      (fun x hx => hnul x (List.mem_cons_of_mem b hx)) (Nat.le_of_succ_le_succ hlen)
    simp [readString, hb, ih]
  | b :: t, rest, 0, hnul, hlen => by simp at hlen

theorem putUint16_be (port : Nat) (h : port < 65536) :
    port / 256 % 256 * 256 + port % 256 = port := by omega

/-! ## C1: request encode/decode round trip -/

/-- C1 (counterexample): the round trip fails for the IPv4 literal
0.0.0.1 — its encoding is byte-identical to a SOCKS4a marker, so the
decoder looks for a domain after the username and fails on the exhausted
input instead of returning the original triple. -/
theorem c1_roundtrip_counterexample :
    encode_request connectCommand ⟨some (.v4 0 0 0 1), [], 80⟩ [] =
      some [4, 1, 0, 80, 0, 0, 0, 1, 0] ∧
    decode_request [4, 1, 0, 80, 0, 0, 0, 1, 0] = none := by decide

/-- C1 (amended): for CONNECT or BIND, a port below 65536, a NUL-free
username of at most 256 bytes, and a destination that is either an IPv4
literal not of the sentinel shape `0.0.0.X` (`X ≠ 0`) or a NUL-free
domain of at most 256 bytes, decoding the encoded request returns
exactly the original (command, address, username) triple, with no
bytes left over. -/
theorem c1_decode_encode_request (cmd : Command) (addr : address) (user : List Nat)
    (_hcmd : cmd = connectCommand ∨ cmd = bindCommand)
    (haddr : wfDestination addr) (hport : addr.port < 65536)
    (huser : ∀ x ∈ user, x ≠ 0) (hulen : user.length ≤ maxStringLen) :
    ∃ bytes, encode_request cmd addr user = some bytes ∧
      decode_request bytes = some ((cmd, addr, user), []) := by
  obtain ⟨ip, name, port⟩ := addr
  rcases haddr with ⟨a, b, c, d, hip, ha, hb, hc, hd, hsent, hname⟩ |
    ⟨hip, hnulname, hlenname⟩
  · simp only at hip hname hport
    subst hip hname
    refine ⟨_, rfl, ?_⟩
    have hr := readString_append user [] maxStringLen huser hulen
    simp [decode_request, readAddrAndUser, putUint16, socks4Version, hsent, hr,
      putUint16_be port hport]
  · simp only at hip hport
    subst hip
    refine ⟨_, rfl, ?_⟩
    have hr1 := readString_append user (name ++ 0 :: []) maxStringLen huser hulen
    have hr2 := readString_append name [] maxStringLen hnulname hlenname
    simp [decode_request, readAddrAndUser, putUint16, socks4Version, hr1, hr2,
      putUint16_be port hport]

/-- C1 (witness): the amended round trip at a concrete input. -/
theorem c1_decode_encode_witness :
    ∃ bytes,
      encode_request connectCommand ⟨some (.v4 127 0 0 1), [], 80⟩ [117] = some bytes ∧
      decode_request bytes =
        some ((connectCommand, ⟨some (.v4 127 0 0 1), [], 80⟩, [117]), []) :=
  c1_decode_encode_request connectCommand ⟨some (.v4 127 0 0 1), [], 80⟩ [117]
    (Or.inl rfl)
    (Or.inl ⟨127, 0, 0, 1, rfl, by decide, by decide, by decide, by decide,
      by decide, rfl⟩)
    (by decide) (by decide) (by decide)

/-! ## C3: non-0x04 version byte gets no reply -/

/-- C3: when the first byte of an inbound connection is not 0x04, the
server writes zero bytes to the client and terminates the handling with
an error (which `ServeConn` logs before closing the connection). -/
theorem c3_bad_version_no_reply (auth : Option (Command → List Nat → Bool))
    (v : Nat) (rest : List Nat) (h : v ≠ socks4Version) :
    serveConn auth (v :: rest) = ([], .errUnsupportedVersion v) := by
  simp [serveConn, h]

/-- C3 (witness): a connection starting with byte 5 gets no reply bytes. -/
theorem c3_bad_version_witness :
    serveConn none (5 :: [1, 0, 80, 127, 0, 0, 1, 0]) =
      ([], .errUnsupportedVersion 5) :=
  c3_bad_version_no_reply none 5 [1, 0, 80, 127, 0, 0, 1, 0] (by decide)

/-! ## C4: authentication rejection -/

theorem serveConn_auth_rejected (f : Command → List Nat → Bool) (cmd : Command)
    (rest2 : List Nat) (addr : address) (user tail : List Nat)
    (hdec : readAddrAndUser rest2 = some ((addr, user), tail))
    (hf : f cmd user = false) :
    serveConn (some f) (socks4Version :: cmd :: rest2) =
      ([0, invalidUserReply, 0, 0, 0, 0, 0, 0], .errUserAuthFailed) := by
  simp only [serveConn, hdec, hf]
  norm_num [sendReply, writeAddr]

theorem userAuth_iff (expected : List Nat) (cmd : Command) (u : List Nat) :
    UserAuth expected cmd u = true ↔ u = expected := by
  simp only [UserAuth, beq_iff_eq]
  exact eq_comm

theorem serveConn_none_auth_passes (input : List Nat) :
    (serveConn none input).2 ≠ .errUserAuthFailed := by
  rcases input with _ | ⟨v, rest⟩
  · simp [serveConn]
  · by_cases hv : v = socks4Version
    · rcases rest with _ | ⟨cmd, rest2⟩
      · simp [serveConn, hv]
      · rcases hdec : readAddrAndUser rest2 with _ | ⟨⟨addr, user⟩, tail⟩
        · simp [serveConn, hv, hdec]
        · simp only [serveConn, hv, hdec, handle]
          repeat' split
          all_goals simp_all
    · simp [serveConn, hv]

/-- C4: (1) when a configured predicate rejects the (command, username)
pair of a well-formed request, the server writes exactly the eight-byte
invalidUser (0x5D) reply and terminates; (2) `UserAuth expected` accepts
exactly the username `expected`, whatever the command; (3) with no
predicate configured (`nil`), handling never terminates with an
authentication failure. -/
theorem c4_auth_reject :
    (∀ (f : Command → List Nat → Bool) (cmd : Command) (rest2 : List Nat)
       (addr : address) (user tail : List Nat),
       readAddrAndUser rest2 = some ((addr, user), tail) →
       f cmd user = false →
       serveConn (some f) (socks4Version :: cmd :: rest2) =
         ([0, invalidUserReply, 0, 0, 0, 0, 0, 0], .errUserAuthFailed)) ∧
    (∀ (expected : List Nat) (cmd : Command) (u : List Nat),
       UserAuth expected cmd u = true ↔ u = expected) ∧
    (∀ input : List Nat, (serveConn none input).2 ≠ .errUserAuthFailed) :=
  ⟨serveConn_auth_rejected, userAuth_iff, serveConn_none_auth_passes⟩

/-- C4 (witness): concrete instances of all three parts — `UserAuth "u"`
rejecting username "v" produces exactly the invalidUser frame. -/
theorem c4_auth_reject_witness :
    serveConn (some (UserAuth [117])) (socks4Version :: connectCommand ::
        [0, 80, 127, 0, 0, 1, 118, 0]) =
      ([0, invalidUserReply, 0, 0, 0, 0, 0, 0], .errUserAuthFailed) ∧
    (UserAuth [117] connectCommand [117] = true ↔ [117] = [117]) ∧
    (serveConn none (socks4Version :: connectCommand ::
        [0, 80, 127, 0, 0, 1, 118, 0])).2 ≠ .errUserAuthFailed :=
  ⟨c4_auth_reject.1 (UserAuth [117]) connectCommand [0, 80, 127, 0, 0, 1, 118, 0]
      ⟨some (.v4 127 0 0 1), [], 80⟩ [118] [] (by decide) (by decide),
   c4_auth_reject.2.1 [117] connectCommand [117],
   c4_auth_reject.2.2 (socks4Version :: connectCommand ::
      [0, 80, 127, 0, 0, 1, 118, 0])⟩

/-! ## C5: unknown command gets exactly the eight-byte rejected reply -/

/-- C5: a well-formed request (address and username decode, and any
configured predicate accepts) whose command byte is neither CONNECT
(0x01) nor BIND (0x02) is answered with exactly the eight bytes
00 5B 00 00 00 00 00 00 and the handling terminates. -/
theorem c5_unknown_command_rejected (auth : Option (Command → List Nat → Bool))
    (cmd : Command) (rest2 : List Nat) (addr : address) (user tail : List Nat)
    (hdec : readAddrAndUser rest2 = some ((addr, user), tail))
    (hauth : ∀ f, auth = some f → f cmd user = true)
    (hc : cmd ≠ connectCommand) (hb : cmd ≠ bindCommand) :
    serveConn auth (socks4Version :: cmd :: rest2) =
      ([0, rejectedReply, 0, 0, 0, 0, 0, 0], .errUnsupportedCommand cmd) := by
  rcases auth with _ | f
  · simp [serveConn, hdec, handle, hc, hb, sendReply, writeAddr]
  · have hf := hauth f rfl
    simp [serveConn, hdec, handle, hc, hb, hf, sendReply, writeAddr]

/-- C5 (witness): the spec's literal scenario — request
04 03 00 50 7F 00 00 01 00 is answered with 00 5B 00 00 00 00 00 00. -/
theorem c5_unknown_command_witness :
    serveConn none (socks4Version :: 3 :: [0, 80, 127, 0, 0, 1, 0]) =
      ([0, rejectedReply, 0, 0, 0, 0, 0, 0], .errUnsupportedCommand 3) :=
  c5_unknown_command_rejected none 3 [0, 80, 127, 0, 0, 1, 0]
    ⟨some (.v4 127 0 0 1), [], 80⟩ [] [] (by decide)
    (fun f h => by cases h) (by decide) (by decide)

/-! ## C2: successful BIND emits exactly two granted replies -/

/-- C2: a BIND handling that reaches the relay has emitted exactly two
replies, both granted: the first carries the listening socket's local
endpoint and precedes the accept of the single inbound connection, the
second carries the accepted peer's endpoint; and whenever the listen
call succeeded the listener is closed exactly once, whether the accept
succeeds or fails. -/
theorem c2_bind_two_granted_replies (env : BindEnv) (events : List SessionEvent)
    (outcome : BindOutcome) (h : handleBind env = (events, outcome)) :
    (outcome = .tunnel →
      ∃ la ra a b c d a2 b2 c2 d2,
        env.listenResult = .ok (some la) ∧ la.ip = .v4 a b c d ∧
        env.acceptResult = .ok (some ra) ∧ ra.ip = .v4 a2 b2 c2 d2 ∧
        events = [.sent ([0, grantedReply] ++ putUint16 la.port ++ [a, b, c, d]),
                  .accepted, .listenerClosed,
                  .sent ([0, grantedReply] ++ putUint16 ra.port ++ [a2, b2, c2, d2]),
                  .tunnelStarted]) ∧
    ((∃ x, env.listenResult = .ok x) → events.count .listenerClosed = 1) := by
  obtain ⟨lr, ar⟩ := env
  rcases lr with u | _ | la
  · simp only [handleBind] at h
    injection h with h1 h2
    subst h1 h2
    exact ⟨fun ht => absurd ht (by decide), fun ⟨x, hx⟩ => by simp at hx⟩
  · simp only [handleBind] at h
    injection h with h1 h2
    subst h1 h2
    exact ⟨fun ht => absurd ht (by decide), fun _ => by decide⟩
  · obtain ⟨lip, lport⟩ := la
    rcases lip with ⟨a, b, c, d⟩ | bs
    · rcases ar with u | _ | ra
      · simp only [handleBind, sendReply, writeAddr] at h
        injection h with h1 h2
        subst h1 h2
        exact ⟨fun ht => absurd ht (by decide), fun _ => rfl⟩
      · simp only [handleBind, sendReply, writeAddr] at h
        injection h with h1 h2
        subst h1 h2
        exact ⟨fun ht => absurd ht (by decide), fun _ => rfl⟩
      · obtain ⟨rip, rport⟩ := ra
        rcases rip with ⟨a2, b2, c2, d2⟩ | bs2
        · simp only [handleBind, sendReply, writeAddr] at h
          injection h with h1 h2
          subst h1 h2
          refine ⟨fun _ => ⟨⟨.v4 a b c d, lport⟩, ⟨.v4 a2 b2 c2 d2, rport⟩,
            a, b, c, d, a2, b2, c2, d2, rfl, rfl, rfl, rfl, by simp [putUint16]⟩,
            fun _ => rfl⟩
        · simp only [handleBind, sendReply, writeAddr] at h
          injection h with h1 h2
          subst h1 h2
          exact ⟨fun ht => absurd ht (by decide), fun _ => rfl⟩
    · simp only [handleBind, sendReply, writeAddr] at h
      injection h with h1 h2
      subst h1 h2
      exact ⟨fun ht => absurd ht (by decide), fun _ => rfl⟩

/-- C2 (witness): a concrete successful BIND environment. -/
theorem c2_bind_two_granted_witness :
    (BindOutcome.tunnel = .tunnel →
      ∃ la ra a b c d a2 b2 c2 d2,
        (BindEnv.mk (.ok (some ⟨.v4 10 0 0 1, 4096⟩)) (.ok (some ⟨.v4 9 9 9 9, 80⟩))).listenResult
            = .ok (some la) ∧
        la.ip = .v4 a b c d ∧
        (BindEnv.mk (.ok (some ⟨.v4 10 0 0 1, 4096⟩)) (.ok (some ⟨.v4 9 9 9 9, 80⟩))).acceptResult
            = .ok (some ra) ∧
        ra.ip = .v4 a2 b2 c2 d2 ∧
        [SessionEvent.sent ([0, grantedReply] ++ putUint16 4096 ++ [10, 0, 0, 1]),
         .accepted, .listenerClosed,
         .sent ([0, grantedReply] ++ putUint16 80 ++ [9, 9, 9, 9]), .tunnelStarted] =
          [.sent ([0, grantedReply] ++ putUint16 la.port ++ [a, b, c, d]),
           .accepted, .listenerClosed,
           .sent ([0, grantedReply] ++ putUint16 ra.port ++ [a2, b2, c2, d2]),
           .tunnelStarted]) ∧
    ((∃ x, (BindEnv.mk (.ok (some ⟨.v4 10 0 0 1, 4096⟩)) (.ok (some ⟨.v4 9 9 9 9, 80⟩))).listenResult
        = .ok x) →
      ([SessionEvent.sent ([0, grantedReply] ++ putUint16 4096 ++ [10, 0, 0, 1]),
        .accepted, .listenerClosed,
        .sent ([0, grantedReply] ++ putUint16 80 ++ [9, 9, 9, 9]),
        .tunnelStarted].count .listenerClosed) = 1) := by
  have h := c2_bind_two_granted_replies
    (BindEnv.mk (.ok (some ⟨.v4 10 0 0 1, 4096⟩)) (.ok (some ⟨.v4 9 9 9 9, 80⟩)))
    [SessionEvent.sent ([0, grantedReply] ++ putUint16 4096 ++ [10, 0, 0, 1]),
     .accepted, .listenerClosed,
     .sent ([0, grantedReply] ++ putUint16 80 ++ [9, 9, 9, 9]), .tunnelStarted]
    .tunnel (by decide)
  exact ⟨fun ht => by
      obtain ⟨la, ra, a, b, c, d, a2, b2, c2, d2, h1, h2, h3, h4, h5⟩ := h.1 ht
      exact ⟨la, ra, a, b, c, d, a2, b2, c2, d2, h1, h2, h3, h4, h5 ▸ rfl⟩,
    h.2⟩

/-! ## C8: IPv6 bound address aborts without a fabricated granted reply -/

/-- C8: when the locally bound socket's address is IPv6, both the
CONNECT handler and the BIND handler abort the session with an error:
only the two reply header bytes ever reach the client — no complete
granted reply carrying that endpoint is emitted — and the relay is never
entered. -/
theorem c8_ipv6_bound_address_aborts (bs : List Nat) (la : TCPAddr)
    (hip : la.ip = .v6 bs) :
    (∀ env : ConnectEnv, env.dialResult = .ok la →
      handleConnect env = ([.sent [0, grantedReply]], .errReplyFailed)) ∧
    (∀ env : BindEnv, env.listenResult = .ok (some la) →
      handleBind env = ([.sent [0, grantedReply], .listenerClosed], .errReplyFailed)) := by
  obtain ⟨lip, lport⟩ := la
  simp only at hip
  subst hip
  constructor
  · intro env henv
    obtain ⟨dr⟩ := env
    simp only at henv
    subst henv
    simp [handleConnect, sendReply, writeAddr]
  · intro env henv
    obtain ⟨lr, ar⟩ := env
    simp only at henv
    subst henv
    simp [handleBind, sendReply, writeAddr]

/-- C8 (witness): a concrete IPv6 local endpoint (::1, port 8080). -/
theorem c8_ipv6_bound_witness :
    handleConnect ⟨.ok ⟨.v6 [0, 0, 0, 0, 0, 0, 0, 1], 8080⟩⟩ =
      ([.sent [0, grantedReply]], .errReplyFailed) ∧
    handleBind ⟨.ok (some ⟨.v6 [0, 0, 0, 0, 0, 0, 0, 1], 8080⟩), .ok none⟩ =
      ([.sent [0, grantedReply], .listenerClosed], .errReplyFailed) :=
  ⟨(c8_ipv6_bound_address_aborts [0, 0, 0, 0, 0, 0, 0, 1]
      ⟨.v6 [0, 0, 0, 0, 0, 0, 0, 1], 8080⟩ rfl).1
      ⟨.ok ⟨.v6 [0, 0, 0, 0, 0, 0, 0, 1], 8080⟩⟩ rfl,
   (c8_ipv6_bound_address_aborts [0, 0, 0, 0, 0, 0, 0, 1]
      ⟨.v6 [0, 0, 0, 0, 0, 0, 0, 1], 8080⟩ rfl).2
      ⟨.ok (some ⟨.v6 [0, 0, 0, 0, 0, 0, 0, 1], 8080⟩), .ok none⟩ rfl⟩

/-! ## C6: non-granted reply code fails the dial and closes the transport -/

/-- C6: when the proxy's reply code is not granted (0x5A), the client
reads the full reply — the six address bytes are parsed after the two
header bytes, leaving exactly the bytes past the 8-byte frame — then
fails with a message containing "connection request failed: " followed
by the reply code, and `Dialer.do` closes the transport connection. -/
theorem c6_non_granted_reply_fails (b0 code p1 p2 a1 a2 a3 a4 : Nat)
    (rest : List Nat) (h : code ≠ grantedReply) :
    readAddr (p1 :: p2 :: a1 :: a2 :: a3 :: a4 :: rest) =
      some (⟨some (.v4 a1 a2 a3 a4), [], p1 * 256 + p2⟩, rest) ∧
    readReply (b0 :: code :: p1 :: p2 :: a1 :: a2 :: a3 :: a4 :: rest) =
      .error ("socks " ++ ("connection request failed: " ++ replyStr code)) ∧
    doAfterDial (b0 :: code :: p1 :: p2 :: a1 :: a2 :: a3 :: a4 :: rest) =
      ⟨true, .error ("socks " ++ ("connection request failed: " ++ replyStr code))⟩ := by
  have hmsg : ("socks connection request failed: " ++ replyStr code) =
      "socks " ++ ("connection request failed: " ++ replyStr code) :=
    (String.append_assoc "socks " "connection request failed: " (replyStr code)).symm
  refine ⟨rfl, ?_, ?_⟩
  · simp [readReply, readAddr, h, hmsg]
  · simp [doAfterDial, readReply, readAddr, h, hmsg]

/-- C6 (witness): a rejected (0x5B) reply frame with trailing bytes. -/
theorem c6_non_granted_witness :
    readAddr (0 :: 80 :: 127 :: 0 :: 0 :: 1 :: [9, 9]) =
      some (⟨some (.v4 127 0 0 1), [], 0 * 256 + 80⟩, [9, 9]) ∧
    readReply (0 :: rejectedReply :: 0 :: 80 :: 127 :: 0 :: 0 :: 1 :: [9, 9]) =
      .error ("socks " ++ ("connection request failed: " ++ replyStr rejectedReply)) ∧
    doAfterDial (0 :: rejectedReply :: 0 :: 80 :: 127 :: 0 :: 0 :: 1 :: [9, 9]) =
      ⟨true, .error ("socks " ++ ("connection request failed: " ++ replyStr rejectedReply))⟩ :=
  c6_non_granted_reply_fails 0 rejectedReply 0 80 127 0 0 1 [9, 9] (by decide)

/-! ## C7: empty resolver result panics instead of failing (code bug) -/

/-- C7 (code bug): with local resolution on, a target host that is not
an IPv4 literal does reach the injected resolver and a non-empty result
does proceed with the first returned address — but an empty result with
no error hits the unguarded `ipaddr[0]` and panics, where the spec
requires the dial to fail.  An IPv4-literal host bypasses the resolver. -/
theorem c7_empty_resolver_result_panics :
    resolvePhase true "example.com:80" (.ok []) = .panicked ∧
    resolvePhase true "example.com:80" (.ok ["10.9.8.7", "10.0.0.1"]) =
      .proceed "10.9.8.7:80" ∧
    resolvePhase true "example.com:80" (.error ()) = .fail ∧
    resolvePhase true "10.2.3.4:80" (.ok []) = .proceed "10.2.3.4:80" := by
  refine ⟨?_, ?_, ?_, ?_⟩ <;> rfl

/-! ## C9: NewDialer scheme handling -/

/-- C9: `NewDialer` fails with "unsupported protocol" naming the scheme
exactly when the parsed URL's scheme is neither socks4 nor socks4a; on
success, local resolution is enabled iff the scheme is socks4, a missing
port defaults the proxy address to hostname:1080, an explicit port
leaves the URL host as the proxy address, and the URL userinfo supplies
the username. -/
theorem c9_newDialer_scheme (u : URL) :
    (NewDialer u = .error ("unsupported protocol \x27" ++ u.scheme ++ "\x27") ↔
      (u.scheme ≠ "socks4" ∧ u.scheme ≠ "socks4a")) ∧
    ∀ d, NewDialer u = .ok d →
      ((d.isResolve = true ↔ u.scheme = "socks4") ∧
       (u.port = "" → d.proxyAddress = joinHostPort u.hostname "1080") ∧
       (u.port ≠ "" → d.proxyAddress = u.host) ∧
       d.username = u.user.getD "") := by
  obtain ⟨scheme, host, hostname, port, user⟩ := u
  by_cases h4 : scheme = "socks4"
  · subst h4
    constructor
    · simp [NewDialer]
    · intro d hd
      simp only [NewDialer, ne_eq] at hd
      rw [if_neg (by simp)] at hd
      injection hd with hd
      subst hd
      by_cases hp : port = ""
      · exact ⟨by simp, fun _ => by simp [hp], fun hq => absurd hp hq,
          by cases user <;> rfl⟩
      · exact ⟨by simp, fun hq => absurd hq hp, fun _ => by simp [hp],
          by cases user <;> rfl⟩
  · by_cases h4a : scheme = "socks4a"
    · subst h4a
      constructor
      · simp [NewDialer]
      · intro d hd
        simp only [NewDialer, ne_eq] at hd
        rw [if_neg (by simp)] at hd
        injection hd with hd
        subst hd
        by_cases hp : port = ""
        · exact ⟨by simp, fun _ => by simp [hp], fun hq => absurd hp hq,
            by cases user <;> rfl⟩
        · exact ⟨by simp, fun hq => absurd hq hp, fun _ => by simp [hp],
            by cases user <;> rfl⟩
    · constructor
      · simp [NewDialer, h4, h4a]
      · intro d hd
        simp only [NewDialer, ne_eq] at hd
        rw [if_pos ⟨h4, h4a⟩] at hd
        cases hd

/-- C9 (witness): the spec's literal scenario — a socks5 URL fails with
"unsupported protocol", and a portless socks4 URL with userinfo resolves
locally, defaults the port to 1080 and takes the username. -/
theorem c9_newDialer_witness :
    (NewDialer ⟨"socks5", "h", "h", "", none⟩ =
        .error ("unsupported protocol \x27socks5\x27") ↔
      ("socks5" ≠ "socks4" ∧ "socks5" ≠ "socks4a")) ∧
    ((Dialer.mk "tcp" "h:1080" "u" true timeMinute).isResolve = true ↔
        "socks4" = "socks4") ∧
    ((() = () : Prop) → (Dialer.mk "tcp" "h:1080" "u" true timeMinute).proxyAddress =
        joinHostPort "h" "1080") ∧
    (Dialer.mk "tcp" "h:1080" "u" true timeMinute).username =
      (some "u").getD "" :=
  have h2 := (c9_newDialer_scheme ⟨"socks4", "h", "h", "", some "u"⟩).2
    (Dialer.mk "tcp" "h:1080" "u" true timeMinute) (by rfl)
  ⟨(c9_newDialer_scheme ⟨"socks5", "h", "h", "", none⟩).1,
   h2.1, fun _ => h2.2.1 rfl, h2.2.2.2⟩

/-! ## C10: NewDialer always sets a one-minute connect timeout -/

/-- C10: every `Dialer` built by a successful `NewDialer` has its
timeout set to one minute — it is non-zero, so `Dialer.connect` always
computes a connect deadline, despite the field's documentation saying
the default is no timeout. -/
theorem c10_newDialer_timeout (u : URL) (d : Dialer)
    (h : NewDialer u = .ok d) :
    d.timeout = timeMinute ∧ d.timeout ≠ 0 ∧
      connectAppliesTimeout d.timeout = true := by
  unfold NewDialer at h
  split at h
  · cases h
  · injection h with h1
    subst h1
    refine ⟨rfl, ?_, ?_⟩
    · show timeMinute ≠ 0
      decide
    · show connectAppliesTimeout timeMinute = true
      decide

/-- C10 (witness): the timeout of a concretely constructed dialer. -/
theorem c10_newDialer_timeout_witness :
    (Dialer.mk "tcp" "h:9" "" true timeMinute).timeout = timeMinute ∧
    (Dialer.mk "tcp" "h:9" "" true timeMinute).timeout ≠ 0 ∧
    connectAppliesTimeout (Dialer.mk "tcp" "h:9" "" true timeMinute).timeout = true :=
  c10_newDialer_timeout ⟨"socks4", "h:9", "h", "9", none⟩
    (Dialer.mk "tcp" "h:9" "" true timeMinute) (by rfl)

end Socks4
